import Mathlib

/-!
Shallow embedding of the `health_tracker_backend` repository: three owner-scoped
CRUD resources (Workout, Meal, Steps) served by Django REST Framework viewsets
(`src/h_tracker/activities/models.py`, `serializers.py`, `views.py`), plus user
registration (`src/h_tracker/users/serializers.py`).

Dates are embedded as ordinal day numbers, users by numeric ids, and the
`auto_now_add` creation timestamp as a strictly increasing per-table counter
(the server assigns it once at insertion, in assignment order).  Integer model
fields are embedded as `Int` so that out-of-range request values can be
represented before validation; Django's `PositiveIntegerField` is translated to
DRF's generated `IntegerField(min_value=0, max_value=2147483647)` check.
-/

namespace HealthTracker

abbrev UserId := Nat
abbrev Date := Nat
abbrev Timestamp := Nat

/-- The `Workout` model row (`activities/models.py`, class `Workout`). -/
structure Workout where
  id : Nat
  user : UserId
  date : Date
  workout_type : String
  duration : Int
  calories_burned : Int
  status : String
  description : Option String
  created_at : Timestamp
deriving Repr, DecidableEq

/-- `Workout.STATUS_CHOICES` from `activities/models.py`. -/
def Workout.STATUS_CHOICES : List (String × String) :=
  [("planned", "Planned"),
   ("in_progress", "In Progress"),
   ("completed", "Completed"),
   ("cancelled", "Cancelled")]

/-- `Workout.WORKOUT_TYPE_CHOICES` from `activities/models.py`. -/
def Workout.WORKOUT_TYPE_CHOICES : List (String × String) :=
  [("cardio", "Cardio"),
   ("strength", "Strength"),
   ("yoga", "Yoga"),
   ("pilates", "Pilates"),
   ("sports", "Sports"),
   ("other", "Other")]

/-- The `Meal` model row (`activities/models.py`, class `Meal`). -/
structure Meal where
  id : Nat
  user : UserId
  date : Date
  meal_type : String
  food_name : String
  calories : Int
  status : String
  description : Option String
  created_at : Timestamp
deriving Repr, DecidableEq

/-- `Meal.STATUS_CHOICES` from `activities/models.py`. -/
def Meal.STATUS_CHOICES : List (String × String) :=
  [("planned", "Planned"),
   ("consumed", "Consumed"),
   ("skipped", "Skipped")]

/-- `Meal.MEAL_TYPE_CHOICES` from `activities/models.py`. -/
def Meal.MEAL_TYPE_CHOICES : List (String × String) :=
  [("breakfast", "Breakfast"),
   ("lunch", "Lunch"),
   ("dinner", "Dinner"),
   ("snack", "Snack")]

/-- Modelled from the spec: the `Steps` model class is absent from `src/`
(`activities/models.py` defines only `Workout` and `Meal`, while
`serializers.py`, `views.py` and `tests.py` import and use `Steps`).
Fields follow spec §3: owner, date, `total_steps` (non-negative int),
`status`, optional description, creation timestamp. -/
structure Steps where
  id : Nat
  user : UserId
  date : Date
  total_steps : Int
  status : String
  description : Option String
  created_at : Timestamp
deriving Repr, DecidableEq

/-- Modelled from the spec: `Steps.STATUS_CHOICES` for the missing `Steps`
model, per spec §3 (`status ∈ {planned, in_progress, completed}`), with labels
following the `Workout`/`Meal` labelling pattern of the sibling models. -/
def Steps.STATUS_CHOICES : List (String × String) :=
  [("planned", "Planned"),
   ("in_progress", "In Progress"),
   ("completed", "Completed")]

/-- The declared `value` components of a choice list, in declaration order. -/
def choiceValues (cs : List (String × String)) : List String :=
  cs.map Prod.fst

/-- DRF `ChoiceField.to_internal_value`: the submitted value must be one of the
declared choice values. -/
def choiceFieldOk (choices : List (String × String)) (v : String) : Bool :=
  (choiceValues choices).contains v

/-- The integer range check DRF generates for a Django `PositiveIntegerField`:
`IntegerField(min_value=0, max_value=2147483647)`. -/
def positiveIntFieldOk (v : Int) : Bool :=
  0 ≤ v && v ≤ 2147483647

/-- Field-error entries contributed by one required serializer field: an error
when the value is absent or fails the field check. -/
def checkRequired {α : Type} (field : String) (v : Option α) (ok : α → Bool) :
    List String :=
  match v with
  | none => [field]
  | some x => if ok x then [] else [field]

/-- Field-error entries contributed by one optional serializer field (a field
that is not required, e.g. because the model field has a default or allows
blank/null): an error only when a value is present and fails the check. -/
def checkOptional {α : Type} (field : String) (v : Option α) (ok : α → Bool) :
    List String :=
  match v with
  | none => []
  | some x => if ok x then [] else [field]

/-- A deserialized `POST`/`PUT`/`PATCH` body for the workout endpoints; `none`
means the key is absent from the request body.  `user` and `created_at` may be
supplied by the client but are declared `read_only` by `WorkoutSerializer`. -/
structure WorkoutRequest where
  user : Option UserId := none
  date : Option Date := none
  workout_type : Option String := none
  duration : Option Int := none
  calories_burned : Option Int := none
  status : Option String := none
  description : Option String := none
  created_at : Option Timestamp := none
deriving Repr, DecidableEq

/-- `WorkoutSerializer` validation on create / full update (`serializers.py`):
DRF runs every writable field and collects the error map over all of them.
`date`, `workout_type`, `duration`, `calories_burned` are required;
`status` has a model default and `description` allows blank/null, so both are
optional; `user` and `created_at` are `read_only` and never validated. -/
def WorkoutSerializer.run_validation (r : WorkoutRequest) : List String :=
  checkRequired "date" r.date (fun _ => true) ++
  checkRequired "workout_type" r.workout_type
    (choiceFieldOk Workout.WORKOUT_TYPE_CHOICES) ++
  checkRequired "duration" r.duration positiveIntFieldOk ++
  checkRequired "calories_burned" r.calories_burned positiveIntFieldOk ++
  checkOptional "status" r.status (choiceFieldOk Workout.STATUS_CHOICES)

/-- `WorkoutSerializer` validation on a partial update (`PATCH`): every field
becomes optional, the per-field checks are unchanged. -/
def WorkoutSerializer.patch_validation (r : WorkoutRequest) : List String :=
  checkOptional "date" r.date (fun _ => true) ++
  checkOptional "workout_type" r.workout_type
    (choiceFieldOk Workout.WORKOUT_TYPE_CHOICES) ++
  checkOptional "duration" r.duration positiveIntFieldOk ++
  checkOptional "calories_burned" r.calories_burned positiveIntFieldOk ++
  checkOptional "status" r.status (choiceFieldOk Workout.STATUS_CHOICES)

/-- A deserialized body for the meal endpoints (`MealSerializer` fields). -/
structure MealRequest where
  user : Option UserId := none
  date : Option Date := none
  meal_type : Option String := none
  food_name : Option String := none
  calories : Option Int := none
  status : Option String := none
  description : Option String := none
  created_at : Option Timestamp := none
deriving Repr, DecidableEq

/-- `MealSerializer` validation on create / full update: `food_name` is a
required `CharField(max_length=255)` (non-blank, at most 255 characters),
`calories` a `PositiveIntegerField`; `user` and `created_at` are read-only. -/
def MealSerializer.run_validation (r : MealRequest) : List String :=
  checkRequired "date" r.date (fun _ => true) ++
  checkRequired "meal_type" r.meal_type
    (choiceFieldOk Meal.MEAL_TYPE_CHOICES) ++
  checkRequired "food_name" r.food_name
    (fun s => decide (0 < s.length) && decide (s.length ≤ 255)) ++
  checkRequired "calories" r.calories positiveIntFieldOk ++
  checkOptional "status" r.status (choiceFieldOk Meal.STATUS_CHOICES)

/-- `MealSerializer` validation on a partial update (`PATCH`). -/
def MealSerializer.patch_validation (r : MealRequest) : List String :=
  checkOptional "date" r.date (fun _ => true) ++
  checkOptional "meal_type" r.meal_type
    (choiceFieldOk Meal.MEAL_TYPE_CHOICES) ++
  checkOptional "food_name" r.food_name
    (fun s => decide (0 < s.length) && decide (s.length ≤ 255)) ++
  checkOptional "calories" r.calories positiveIntFieldOk ++
  checkOptional "status" r.status (choiceFieldOk Meal.STATUS_CHOICES)

/-- A deserialized body for the steps endpoints (`StepsSerializer` fields). -/
structure StepsRequest where
  user : Option UserId := none
  date : Option Date := none
  total_steps : Option Int := none
  status : Option String := none
  description : Option String := none
  created_at : Option Timestamp := none
deriving Repr, DecidableEq

/-- `StepsSerializer` validation on create / full update.  The serializer is in
`src/` (`serializers.py`); the range constraint on `total_steps` comes from the
missing `Steps` model, modelled from the spec: `total_steps` is a non-negative
int (`PositiveIntegerField`, allowed `= 0` but not negative). -/
def StepsSerializer.run_validation (r : StepsRequest) : List String :=
  checkRequired "date" r.date (fun _ => true) ++
  checkRequired "total_steps" r.total_steps positiveIntFieldOk ++
  checkOptional "status" r.status (choiceFieldOk Steps.STATUS_CHOICES)

/-- `StepsSerializer` validation on a partial update (`PATCH`). -/
def StepsSerializer.patch_validation (r : StepsRequest) : List String :=
  checkOptional "date" r.date (fun _ => true) ++
  checkOptional "total_steps" r.total_steps positiveIntFieldOk ++
  checkOptional "status" r.status (choiceFieldOk Steps.STATUS_CHOICES)

/-- An HTTP response of the embedded endpoints, tagged by status code. -/
inductive Resp (α : Type) where
  | created (record : α)
  | ok (record : α)
  | noContent
  | badRequest (fieldErrors : List String)
  | forbidden
  | notFound
deriving Repr, DecidableEq

/-- The HTTP status code of a response. -/
def Resp.status_code {α : Type} : Resp α → Nat
  | .created _ => 201
  | .ok _ => 200
  | .noContent => 204
  | .badRequest _ => 400
  | .forbidden => 403
  | .notFound => 404

/-- `IsOwner.has_object_permission` (`activities/views.py`):
`obj.user == request.user`. -/
def IsOwner.has_object_permission (caller : UserId) (objUser : UserId) : Bool :=
  objUser == caller

/-- The workout table: rows plus the generators of the synthetic primary key
and of the `auto_now_add` creation timestamp. -/
structure WorkoutDB where
  rows : List Workout
  nextId : Nat := 1
  nextTime : Timestamp := 1
deriving Repr, DecidableEq

/-- The meal table. -/
structure MealDB where
  rows : List Meal
  nextId : Nat := 1
  nextTime : Timestamp := 1
deriving Repr, DecidableEq

/-- The steps table. -/
structure StepsDB where
  rows : List Steps
  nextId : Nat := 1
  nextTime : Timestamp := 1
deriving Repr, DecidableEq

/-- `WorkoutViewSet.get_queryset`: workouts of the authenticated caller only. -/
def WorkoutViewSet.get_queryset (db : WorkoutDB) (caller : UserId) :
    List Workout :=
  db.rows.filter (fun w => w.user == caller)

/-- DRF `get_object` for `WorkoutViewSet`: look the pk up inside the
owner-filtered queryset (`Http404` when absent from it). -/
def WorkoutViewSet.get_object (db : WorkoutDB) (caller : UserId) (pk : Nat) :
    Option Workout :=
  (WorkoutViewSet.get_queryset db caller).find? (fun w => w.id == pk)

/-- `POST /workouts/`: validate, then save with
`serializer.save(user=request.user)` (`perform_create`), the serializer's
`create` likewise forcing `validated_data["user"] = request.user`.  The model
assigns the id and the `auto_now_add` timestamp and applies the
`status` default `"planned"` when the field was omitted. -/
def WorkoutViewSet.create (db : WorkoutDB) (caller : UserId)
    (body : WorkoutRequest) : WorkoutDB × Resp Workout :=
  let errs := WorkoutSerializer.run_validation body
  if errs.isEmpty then
    let w : Workout :=
      { id := db.nextId
        user := caller
        date := body.date.getD 0
        workout_type := body.workout_type.getD ""
        duration := body.duration.getD 0
        calories_burned := body.calories_burned.getD 0
        status := body.status.getD "planned"
        description := body.description
        created_at := db.nextTime }
    ({ rows := db.rows ++ [w], nextId := db.nextId + 1,
       nextTime := db.nextTime + 1 }, .created w)
  else (db, .badRequest errs)

/-- `GET /workouts/{id}/`: `get_object` then the `IsOwner` object-permission
check (DRF returns 403 when a permission check fails on a found object). -/
def WorkoutViewSet.retrieve (db : WorkoutDB) (caller : UserId) (pk : Nat) :
    Resp Workout :=
  match WorkoutViewSet.get_object db caller pk with
  | none => .notFound
  | some w =>
    if IsOwner.has_object_permission caller w.user then .ok w else .forbidden

/-- DRF `ModelSerializer.update` for `WorkoutSerializer`: set exactly the
attributes present in `validated_data`.  `user` and `created_at` are
`read_only_fields`, so they are never part of `validated_data` and are never
written. -/
def WorkoutSerializer.apply_update (w : Workout) (body : WorkoutRequest) :
    Workout :=
  { w with
    date := body.date.getD w.date
    workout_type := body.workout_type.getD w.workout_type
    duration := body.duration.getD w.duration
    calories_burned := body.calories_burned.getD w.calories_burned
    status := body.status.getD w.status
    description := (body.description).orElse (fun _ => w.description) }

/-- `PUT`/`PATCH /workouts/{id}/` (`isPatch` selects partial update). -/
def WorkoutViewSet.update (db : WorkoutDB) (caller : UserId) (pk : Nat)
    (body : WorkoutRequest) (isPatch : Bool) : WorkoutDB × Resp Workout :=
  match WorkoutViewSet.get_object db caller pk with
  | none => (db, .notFound)
  | some w =>
    if IsOwner.has_object_permission caller w.user then
      let errs := if isPatch then WorkoutSerializer.patch_validation body
                  else WorkoutSerializer.run_validation body
      if errs.isEmpty then
        let w2 := WorkoutSerializer.apply_update w body
        ({ db with rows := db.rows.map (fun x => if x.id == pk then w2 else x) },
         .ok w2)
      else (db, .badRequest errs)
    else (db, .forbidden)

/-- `DELETE /workouts/{id}/`: `get_object`, permission check, then delete the
row with that pk. -/
def WorkoutViewSet.destroy (db : WorkoutDB) (caller : UserId) (pk : Nat) :
    WorkoutDB × Resp Workout :=
  match WorkoutViewSet.get_object db caller pk with
  | none => (db, .notFound)
  | some w =>
    if IsOwner.has_object_permission caller w.user then
      ({ db with rows := db.rows.filter (fun x => !(x.id == pk)) }, .noContent)
    else (db, .forbidden)

/-- Exact-match query filters of `WorkoutViewSet`
(`filterset_fields = ["date", "workout_type", "status"]`). -/
structure WorkoutFilters where
  date : Option Date := none
  workout_type : Option String := none
  status : Option String := none
deriving Repr, DecidableEq

/-- An absent query filter matches everything; a present one matches exactly. -/
def matchOpt {α : Type} [BEq α] (f : Option α) (v : α) : Bool :=
  match f with
  | none => true
  | some x => v == x

/-- The default ordering key comparison shared by the three viewsets
(`ordering = ["-date", "-created_at"]`): date descending, then creation
timestamp descending. -/
def keyOrd (x y : Nat × Nat) : Prop :=
  y.1 < x.1 ∨ (x.1 = y.1 ∧ y.2 ≤ x.2)

instance keyOrd.instDec : DecidableRel keyOrd := fun x y =>
  inferInstanceAs (Decidable (y.1 < x.1 ∨ (x.1 = y.1 ∧ y.2 ≤ x.2)))

/-- The default ordering relation on workouts. -/
def Workout.ord (a b : Workout) : Prop :=
  keyOrd (a.date, a.created_at) (b.date, b.created_at)

instance Workout.ord.instDec : DecidableRel Workout.ord := fun a b =>
  inferInstanceAs (Decidable (keyOrd (a.date, a.created_at) (b.date, b.created_at)))

/-- The default ordering relation on meals. -/
def Meal.ord (a b : Meal) : Prop :=
  keyOrd (a.date, a.created_at) (b.date, b.created_at)

instance Meal.ord.instDec : DecidableRel Meal.ord := fun a b =>
  inferInstanceAs (Decidable (keyOrd (a.date, a.created_at) (b.date, b.created_at)))

/-- The default ordering relation on steps rows. -/
def Steps.ord (a b : Steps) : Prop :=
  keyOrd (a.date, a.created_at) (b.date, b.created_at)

instance Steps.ord.instDec : DecidableRel Steps.ord := fun a b =>
  inferInstanceAs (Decidable (keyOrd (a.date, a.created_at) (b.date, b.created_at)))

/-- `GET /workouts/`: owner-scoped queryset, exact-match filters, then the
default ordering (no explicit `ordering` query parameter). -/
def WorkoutViewSet.list (db : WorkoutDB) (caller : UserId)
    (f : WorkoutFilters) : List Workout :=
  List.insertionSort Workout.ord
    ((WorkoutViewSet.get_queryset db caller).filter
      (fun w => matchOpt f.date w.date && matchOpt f.workout_type w.workout_type
        && matchOpt f.status w.status))

/-- `MealViewSet.get_queryset`: meals of the authenticated caller only. -/
def MealViewSet.get_queryset (db : MealDB) (caller : UserId) : List Meal :=
  db.rows.filter (fun w => w.user == caller)

/-- DRF `get_object` for `MealViewSet`. -/
def MealViewSet.get_object (db : MealDB) (caller : UserId) (pk : Nat) :
    Option Meal :=
  (MealViewSet.get_queryset db caller).find? (fun w => w.id == pk)

/-- `POST /meals/` (`perform_create` forces `user := request.user`). -/
def MealViewSet.create (db : MealDB) (caller : UserId) (body : MealRequest) :
    MealDB × Resp Meal :=
  let errs := MealSerializer.run_validation body
  if errs.isEmpty then
    let m : Meal :=
      { id := db.nextId
        user := caller
        date := body.date.getD 0
        meal_type := body.meal_type.getD ""
        food_name := body.food_name.getD ""
        calories := body.calories.getD 0
        status := body.status.getD "planned"
        description := body.description
        created_at := db.nextTime }
    ({ rows := db.rows ++ [m], nextId := db.nextId + 1,
       nextTime := db.nextTime + 1 }, .created m)
  else (db, .badRequest errs)

/-- `GET /meals/{id}/`. -/
def MealViewSet.retrieve (db : MealDB) (caller : UserId) (pk : Nat) :
    Resp Meal :=
  match MealViewSet.get_object db caller pk with
  | none => .notFound
  | some m =>
    if IsOwner.has_object_permission caller m.user then .ok m else .forbidden

/-- `ModelSerializer.update` for `MealSerializer` (read-only `user` and
`created_at` are never written). -/
def MealSerializer.apply_update (m : Meal) (body : MealRequest) : Meal :=
  { m with
    date := body.date.getD m.date
    meal_type := body.meal_type.getD m.meal_type
    food_name := body.food_name.getD m.food_name
    calories := body.calories.getD m.calories
    status := body.status.getD m.status
    description := (body.description).orElse (fun _ => m.description) }

/-- `PUT`/`PATCH /meals/{id}/`. -/
def MealViewSet.update (db : MealDB) (caller : UserId) (pk : Nat)
    (body : MealRequest) (isPatch : Bool) : MealDB × Resp Meal :=
  match MealViewSet.get_object db caller pk with
  | none => (db, .notFound)
  | some m =>
    if IsOwner.has_object_permission caller m.user then
      let errs := if isPatch then MealSerializer.patch_validation body
                  else MealSerializer.run_validation body
      if errs.isEmpty then
        let m2 := MealSerializer.apply_update m body
        ({ db with rows := db.rows.map (fun x => if x.id == pk then m2 else x) },
         .ok m2)
      else (db, .badRequest errs)
    else (db, .forbidden)

/-- `DELETE /meals/{id}/`. -/
def MealViewSet.destroy (db : MealDB) (caller : UserId) (pk : Nat) :
    MealDB × Resp Meal :=
  match MealViewSet.get_object db caller pk with
  | none => (db, .notFound)
  | some m =>
    if IsOwner.has_object_permission caller m.user then
      ({ db with rows := db.rows.filter (fun x => !(x.id == pk)) }, .noContent)
    else (db, .forbidden)

/-- Exact-match query filters of `MealViewSet`
(`filterset_fields = ["date", "meal_type", "status"]`). -/
structure MealFilters where
  date : Option Date := none
  meal_type : Option String := none
  status : Option String := none
deriving Repr, DecidableEq

/-- `GET /meals/`. -/
def MealViewSet.list (db : MealDB) (caller : UserId) (f : MealFilters) :
    List Meal :=
  List.insertionSort Meal.ord
    ((MealViewSet.get_queryset db caller).filter
      (fun m => matchOpt f.date m.date && matchOpt f.meal_type m.meal_type
        && matchOpt f.status m.status))

/-- `StepsViewSet.get_queryset`: steps of the authenticated caller only. -/
def StepsViewSet.get_queryset (db : StepsDB) (caller : UserId) : List Steps :=
  db.rows.filter (fun w => w.user == caller)

/-- DRF `get_object` for `StepsViewSet`. -/
def StepsViewSet.get_object (db : StepsDB) (caller : UserId) (pk : Nat) :
    Option Steps :=
  (StepsViewSet.get_queryset db caller).find? (fun w => w.id == pk)

/-- `POST /steps/` (`perform_create` forces `user := request.user`; the
`status` default `"planned"` is modelled from the spec for the missing `Steps`
model, per the spec's structurally-identical resource pattern). -/
def StepsViewSet.create (db : StepsDB) (caller : UserId) (body : StepsRequest) :
    StepsDB × Resp Steps :=
  let errs := StepsSerializer.run_validation body
  if errs.isEmpty then
    let s : Steps :=
      { id := db.nextId
        user := caller
        date := body.date.getD 0
        total_steps := body.total_steps.getD 0
        status := body.status.getD "planned"
        description := body.description
        created_at := db.nextTime }
    ({ rows := db.rows ++ [s], nextId := db.nextId + 1,
       nextTime := db.nextTime + 1 }, .created s)
  else (db, .badRequest errs)

/-- `GET /steps/{id}/`. -/
def StepsViewSet.retrieve (db : StepsDB) (caller : UserId) (pk : Nat) :
    Resp Steps :=
  match StepsViewSet.get_object db caller pk with
  | none => .notFound
  | some s =>
    if IsOwner.has_object_permission caller s.user then .ok s else .forbidden

/-- `ModelSerializer.update` for `StepsSerializer`. -/
def StepsSerializer.apply_update (s : Steps) (body : StepsRequest) : Steps :=
  { s with
    date := body.date.getD s.date
    total_steps := body.total_steps.getD s.total_steps
    status := body.status.getD s.status
    description := (body.description).orElse (fun _ => s.description) }

/-- `PUT`/`PATCH /steps/{id}/`. -/
def StepsViewSet.update (db : StepsDB) (caller : UserId) (pk : Nat)
    (body : StepsRequest) (isPatch : Bool) : StepsDB × Resp Steps :=
  match StepsViewSet.get_object db caller pk with
  | none => (db, .notFound)
  | some s =>
    if IsOwner.has_object_permission caller s.user then
      let errs := if isPatch then StepsSerializer.patch_validation body
                  else StepsSerializer.run_validation body
      if errs.isEmpty then
        let s2 := StepsSerializer.apply_update s body
        ({ db with rows := db.rows.map (fun x => if x.id == pk then s2 else x) },
         .ok s2)
      else (db, .badRequest errs)
    else (db, .forbidden)

/-- `DELETE /steps/{id}/`. -/
def StepsViewSet.destroy (db : StepsDB) (caller : UserId) (pk : Nat) :
    StepsDB × Resp Steps :=
  match StepsViewSet.get_object db caller pk with
  | none => (db, .notFound)
  | some s =>
    if IsOwner.has_object_permission caller s.user then
      ({ db with rows := db.rows.filter (fun x => !(x.id == pk)) }, .noContent)
    else (db, .forbidden)

/-- Exact-match query filters of `StepsViewSet`
(`filterset_fields = ["date", "status"]`). -/
structure StepsFilters where
  date : Option Date := none
  status : Option String := none
deriving Repr, DecidableEq

/-- `GET /steps/`. -/
def StepsViewSet.list (db : StepsDB) (caller : UserId) (f : StepsFilters) :
    List Steps :=
  List.insertionSort Steps.ord
    ((StepsViewSet.get_queryset db caller).filter
      (fun s => matchOpt f.date s.date && matchOpt f.status s.status))

/-- One `{"value": ..., "label": ...}` entry of a choices response. -/
structure ChoiceItem where
  value : String
  label : String
deriving Repr, DecidableEq

/-- A choice-metadata response body: an optional types key and a statuses key
(`StepsChoicesView` omits the types key). -/
structure ChoicesResponse where
  types : Option (List ChoiceItem)
  statuses : List ChoiceItem
deriving Repr, DecidableEq

/-- Build the `{value, label}` list of a declared choice list, in order. -/
def choiceItems (cs : List (String × String)) : List ChoiceItem :=
  cs.map (fun c => { value := c.1, label := c.2 })

/-- `WorkoutChoicesView.get` (`views.py`): `workout_types` and
`workout_statuses` built from the model's declarations in order. -/
def WorkoutChoicesView.get : ChoicesResponse :=
  { types := some (choiceItems Workout.WORKOUT_TYPE_CHOICES)
    statuses := choiceItems Workout.STATUS_CHOICES }

/-- `MealChoicesView.get` (`views.py`). -/
def MealChoicesView.get : ChoicesResponse :=
  { types := some (choiceItems Meal.MEAL_TYPE_CHOICES)
    statuses := choiceItems Meal.STATUS_CHOICES }

/-- `StepsChoicesView.get` (`views.py`): only `steps_statuses`, no types key. -/
def StepsChoicesView.get : ChoicesResponse :=
  { types := none
    statuses := choiceItems Steps.STATUS_CHOICES }

/-- Modelled from the spec: the `users/models.py` `User` model is absent from
`src/` (only `users/serializers.py` and `users/tests.py` are present).  An
identity record holds full name, unique email, and the stored password
credential (hashing is out of the spec's scope). -/
structure User where
  id : Nat
  full_name : String
  email : String
  password : String
deriving Repr, DecidableEq

/-- The identity store. -/
structure UserDB where
  users : List User
  nextId : Nat := 1
deriving Repr, DecidableEq

/-- A deserialized `POST /users/register/` body. -/
structure RegistrationRequest where
  full_name : Option String := none
  email : Option String := none
  password : Option String := none
deriving Repr, DecidableEq

/-- `UserRegistrationSerializer` validation (`users/serializers.py`):
`full_name` and `email` are required model `CharField`s (non-blank); the email
`unique=True` constraint of the modelled `User` adds the already-in-use check;
`password` is an explicit `CharField(write_only=True, min_length=8)`. -/
def UserRegistrationSerializer.run_validation (db : UserDB)
    (r : RegistrationRequest) : List String :=
  checkRequired "full_name" r.full_name (fun s => decide (0 < s.length)) ++
  checkRequired "email" r.email
    (fun e => decide (0 < e.length) && !(db.users.any (fun u => u.email == e))) ++
  checkRequired "password" r.password (fun p => decide (8 ≤ p.length))

/-- The representation `UserRegistrationSerializer` returns: its declared
fields minus the `write_only` password. -/
structure UserOut where
  id : Nat
  full_name : String
  email : String
deriving Repr, DecidableEq

/-- Serialize a stored identity for the response; `password` is `write_only`
and never serialized. -/
def UserRegistrationSerializer.to_representation (u : User) : UserOut :=
  { id := u.id, full_name := u.full_name, email := u.email }

/-- Modelled from the spec: the `users/views.py` registration view is absent
from `src/`.  `POST /users/register/` validates with
`UserRegistrationSerializer`, then `create_user` stores the identity; on
failure it returns the field-level error map and stores nothing (spec §6). -/
def RegisterView.post (db : UserDB) (r : RegistrationRequest) :
    UserDB × Resp UserOut :=
  let errs := UserRegistrationSerializer.run_validation db r
  if errs.isEmpty then
    let u : User :=
      { id := db.nextId
        full_name := r.full_name.getD ""
        email := r.email.getD ""
        password := r.password.getD "" }
    ({ users := db.users ++ [u], nextId := db.nextId + 1 },
     .created (UserRegistrationSerializer.to_representation u))
  else (db, .badRequest errs)

/-- Well-formedness of the workout table, maintained by the id/timestamp
generators: ids and creation timestamps are pairwise distinct and below the
generators. -/
def WorkoutDB.Wf (db : WorkoutDB) : Prop :=
  db.rows.Pairwise (fun a b => a.id ≠ b.id ∧ a.created_at ≠ b.created_at) ∧
  ∀ w ∈ db.rows, w.id < db.nextId ∧ w.created_at < db.nextTime

/-- Well-formedness of the meal table. -/
def MealDB.Wf (db : MealDB) : Prop :=
  db.rows.Pairwise (fun a b => a.id ≠ b.id ∧ a.created_at ≠ b.created_at) ∧
  ∀ m ∈ db.rows, m.id < db.nextId ∧ m.created_at < db.nextTime

/-- Well-formedness of the steps table. -/
def StepsDB.Wf (db : StepsDB) : Prop :=
  db.rows.Pairwise (fun a b => a.id ≠ b.id ∧ a.created_at ≠ b.created_at) ∧
  ∀ s ∈ db.rows, s.id < db.nextId ∧ s.created_at < db.nextTime

instance WorkoutDB.Wf.instDec (db : WorkoutDB) : Decidable db.Wf := by
  unfold WorkoutDB.Wf
  infer_instance

instance MealDB.Wf.instDec (db : MealDB) : Decidable db.Wf := by
  unfold MealDB.Wf
  infer_instance

instance StepsDB.Wf.instDec (db : StepsDB) : Decidable db.Wf := by
  unfold StepsDB.Wf
  infer_instance

instance Workout.ord.instTotal : IsTotal Workout Workout.ord :=
  ⟨by intro a b; unfold Workout.ord keyOrd; omega⟩

instance Workout.ord.instTrans : IsTrans Workout Workout.ord :=
  ⟨by intro a b c; unfold Workout.ord keyOrd; omega⟩

instance Meal.ord.instTotal : IsTotal Meal Meal.ord :=
  ⟨by intro a b; unfold Meal.ord keyOrd; omega⟩

instance Meal.ord.instTrans : IsTrans Meal Meal.ord :=
  ⟨by intro a b c; unfold Meal.ord keyOrd; omega⟩

instance Steps.ord.instTotal : IsTotal Steps Steps.ord :=
  ⟨by intro a b; unfold Steps.ord keyOrd; omega⟩

instance Steps.ord.instTrans : IsTrans Steps Steps.ord :=
  ⟨by intro a b c; unfold Steps.ord keyOrd; omega⟩

/-- A sample stored workout of user 1, used by concrete witnesses. -/
def sampleWorkout : Workout :=
  { id := 1, user := 1, date := 10, workout_type := "cardio", duration := 30,
    calories_burned := 250, status := "completed", description := none,
    created_at := 1 }

/-- A second sample stored workout of user 1 with a later date. -/
def sampleWorkout2 : Workout :=
  { id := 2, user := 1, date := 12, workout_type := "yoga", duration := 60,
    calories_burned := 120, status := "planned", description := none,
    created_at := 2 }

/-- A sample workout table holding the two sample workouts. -/
def sampleWorkoutDB : WorkoutDB :=
  { rows := [sampleWorkout, sampleWorkout2], nextId := 3, nextTime := 3 }

/-- A sample stored meal of user 1. -/
def sampleMeal : Meal :=
  { id := 1, user := 1, date := 10, meal_type := "breakfast",
    food_name := "Oatmeal", calories := 300, status := "consumed",
    description := none, created_at := 1 }

/-- A sample meal table holding the sample meal. -/
def sampleMealDB : MealDB :=
  { rows := [sampleMeal], nextId := 2, nextTime := 2 }

/-- A sample stored steps row of user 1. -/
def sampleSteps : Steps :=
  { id := 1, user := 1, date := 10, total_steps := 8500,
    status := "completed", description := none, created_at := 1 }

/-- A sample steps table holding the sample steps row. -/
def sampleStepsDB : StepsDB :=
  { rows := [sampleSteps], nextId := 2, nextTime := 2 }

/-- A sample identity store holding one registered user. -/
def sampleUserDB : UserDB :=
  { users := [{ id := 1, full_name := "First User", email := "dup@email.com",
                password := "pass1234" }], nextId := 2 }

/-!  Helper lemmas shared by the claim theorems. -/

/-- In a list whose members have pairwise distinct keys, equal keys force equal
members. -/
theorem mem_eq_of_pairwise_key {α : Type} {key : α → Nat} {l : List α}
    (hp : l.Pairwise (fun a b => key a ≠ key b)) {a b : α}
    (ha : a ∈ l) (hb : b ∈ l) (hk : key a = key b) : a = b := by
  induction l with
  | nil => cases ha
  | cons x xs ih =>
    rcases List.pairwise_cons.mp hp with ⟨hx, hxs⟩
    rcases List.mem_cons.mp ha with rfl | ha' <;>
      rcases List.mem_cons.mp hb with rfl | hb'
    · rfl
    · exact absurd hk (hx _ hb')
    · exact absurd hk.symm (hx _ ha')
    · exact ih hxs ha' hb'

/-- Looking a record's id up inside somebody else's owner-filtered queryset
finds nothing, provided ids are pairwise distinct. -/
theorem find_in_other_queryset_eq_none {α : Type} (userOf : α → UserId)
    (idOf : α → Nat) {rows : List α}
    (hp : rows.Pairwise (fun a b => idOf a ≠ idOf b)) {r : α} (hr : r ∈ rows)
    {B : UserId} (hB : userOf r ≠ B) :
    (rows.filter (fun w => userOf w == B)).find? (fun w => idOf w == idOf r)
      = none := by
  rw [List.find?_eq_none]
  intro w hw hbeq
  rcases List.mem_filter.mp hw with ⟨hwrows, huser⟩
  have hid : idOf w = idOf r := by simpa using hbeq
  have hwr : w = r := mem_eq_of_pairwise_key hp hwrows hr hid
  subst hwr
  exact hB (by simpa using huser)

/-- Any record found in a caller's owner-filtered queryset is owned by that
caller. -/
theorem find_in_queryset_owner {α : Type} (userOf : α → UserId)
    (p : α → Bool) {rows : List α} {c : UserId} {w : α}
    (h : (rows.filter (fun x => userOf x == c)).find? p = some w) :
    userOf w = c := by
  have hw := List.mem_of_find?_eq_some h
  simpa using (List.mem_filter.mp hw).2

/-- Appending a fresh record whose two keys dominate every present record
preserves pairwise key distinctness. -/
theorem pairwise_append_fresh {α : Type} (key1 key2 : α → Nat)
    {rows : List α} {w : α}
    (hp : rows.Pairwise (fun a b => key1 a ≠ key1 b ∧ key2 a ≠ key2 b))
    (hlt : ∀ x ∈ rows, key1 x < key1 w ∧ key2 x < key2 w) :
    (rows ++ [w]).Pairwise
      (fun a b => key1 a ≠ key1 b ∧ key2 a ≠ key2 b) := by
  rw [List.pairwise_append]
  refine ⟨hp, List.pairwise_singleton _ _, ?_⟩
  intro a ha b hb
  rcases List.mem_singleton.mp hb with rfl
  obtain ⟨h1, h2⟩ := hlt a ha
  exact ⟨Nat.ne_of_lt h1, Nat.ne_of_lt h2⟩

theorem WorkoutDB.Wf.workout_create_wf {db : WorkoutDB} (h : db.Wf) (caller : UserId)
    (body : WorkoutRequest) : ((WorkoutViewSet.create db caller body).1).Wf := by
  unfold WorkoutViewSet.create
  by_cases hE : (WorkoutSerializer.run_validation body).isEmpty <;>
    simp only [hE, if_true, if_false]
  · refine ⟨pairwise_append_fresh Workout.id Workout.created_at h.1 ?_, ?_⟩
    · intro x hx; exact (h.2 x hx)
    · intro x hx
      rcases List.mem_append.mp hx with hx' | hx'
      · obtain ⟨h1, h2⟩ := h.2 x hx'
        exact ⟨Nat.lt_succ_of_lt h1, Nat.lt_succ_of_lt h2⟩
      · rcases List.mem_singleton.mp hx' with rfl
        exact ⟨Nat.lt_succ_self _, Nat.lt_succ_self _⟩
  · exact h

theorem MealDB.Wf.meal_create_wf {db : MealDB} (h : db.Wf) (caller : UserId)
    (body : MealRequest) : ((MealViewSet.create db caller body).1).Wf := by
  unfold MealViewSet.create
  by_cases hE : (MealSerializer.run_validation body).isEmpty <;>
    simp only [hE, if_true, if_false]
  · refine ⟨pairwise_append_fresh Meal.id Meal.created_at h.1 ?_, ?_⟩
    · intro x hx; exact (h.2 x hx)
    · intro x hx
      rcases List.mem_append.mp hx with hx' | hx'
      · obtain ⟨h1, h2⟩ := h.2 x hx'
        exact ⟨Nat.lt_succ_of_lt h1, Nat.lt_succ_of_lt h2⟩
      · rcases List.mem_singleton.mp hx' with rfl
        exact ⟨Nat.lt_succ_self _, Nat.lt_succ_self _⟩
  · exact h

/-- A field name never appears among the errors of a differently named
required field. -/
theorem not_mem_checkRequired {α : Type} {f g : String} (hne : f ≠ g)
    (v : Option α) (ok : α → Bool) : f ∉ checkRequired g v ok := by
  cases v with
  | none => simp [checkRequired, hne]
  | some x => by_cases h : ok x <;> simp [checkRequired, h, hne]

/-- A field name never appears among the errors of a differently named
optional field. -/
theorem not_mem_checkOptional {α : Type} {f g : String} (hne : f ≠ g)
    (v : Option α) (ok : α → Bool) : f ∉ checkOptional g v ok := by
  cases v with
  | none => simp [checkOptional]
  | some x => by_cases h : ok x <;> simp [checkOptional, h, hne]

/-- A present field errors exactly when its check fails. -/
theorem mem_checkRequired_self_iff {α : Type} (g : String) (x : α)
    (ok : α → Bool) : g ∈ checkRequired g (some x) ok ↔ ok x = false := by
  by_cases h : ok x <;> simp [checkRequired, h]

/-- A present optional field errors exactly when its check fails. -/
theorem mem_checkOptional_self_iff {α : Type} (g : String) (x : α)
    (ok : α → Bool) : g ∈ checkOptional g (some x) ok ↔ ok x = false := by
  by_cases h : ok x <;> simp [checkOptional, h]

theorem StepsDB.Wf.steps_create_wf {db : StepsDB} (h : db.Wf) (caller : UserId)
    (body : StepsRequest) : ((StepsViewSet.create db caller body).1).Wf := by
  unfold StepsViewSet.create
  by_cases hE : (StepsSerializer.run_validation body).isEmpty <;>
    simp only [hE, if_true, if_false]
  · refine ⟨pairwise_append_fresh Steps.id Steps.created_at h.1 ?_, ?_⟩
    · intro x hx; exact (h.2 x hx)
    · intro x hx
      rcases List.mem_append.mp hx with hx' | hx'
      · obtain ⟨h1, h2⟩ := h.2 x hx'
        exact ⟨Nat.lt_succ_of_lt h1, Nat.lt_succ_of_lt h2⟩
      · rcases List.mem_singleton.mp hx' with rfl
        exact ⟨Nat.lt_succ_self _, Nat.lt_succ_self _⟩
  · exact h

/-- A nonempty list is not `isEmpty`. -/
theorem isEmpty_eq_false_of_ne_nil {α : Type} {l : List α} (h : l ≠ []) :
    l.isEmpty = false := by
  rcases l with _ | ⟨a, t⟩
  · exact absurd rfl h
  · rfl

theorem WorkoutViewSet.workout_get_object_owner {db : WorkoutDB} {caller : UserId}
    {pk : Nat} {w : Workout}
    (hobj : WorkoutViewSet.get_object db caller pk = some w) :
    w.user = caller :=
  find_in_queryset_owner Workout.user _ hobj

theorem MealViewSet.meal_get_object_owner {db : MealDB} {caller : UserId}
    {pk : Nat} {m : Meal}
    (hobj : MealViewSet.get_object db caller pk = some m) :
    m.user = caller :=
  find_in_queryset_owner Meal.user _ hobj

theorem StepsViewSet.steps_get_object_owner {db : StepsDB} {caller : UserId}
    {pk : Nat} {s : Steps}
    (hobj : StepsViewSet.get_object db caller pk = some s) :
    s.user = caller :=
  find_in_queryset_owner Steps.user _ hobj

theorem WorkoutViewSet.workout_create_of_errors (db : WorkoutDB) (caller : UserId)
    (body : WorkoutRequest) (h : WorkoutSerializer.run_validation body ≠ []) :
    WorkoutViewSet.create db caller body =
      (db, .badRequest (WorkoutSerializer.run_validation body)) := by
  simp [WorkoutViewSet.create, isEmpty_eq_false_of_ne_nil h]

theorem MealViewSet.meal_create_of_errors (db : MealDB) (caller : UserId)
    (body : MealRequest) (h : MealSerializer.run_validation body ≠ []) :
    MealViewSet.create db caller body =
      (db, .badRequest (MealSerializer.run_validation body)) := by
  simp [MealViewSet.create, isEmpty_eq_false_of_ne_nil h]

theorem StepsViewSet.steps_create_of_errors (db : StepsDB) (caller : UserId)
    (body : StepsRequest) (h : StepsSerializer.run_validation body ≠ []) :
    StepsViewSet.create db caller body =
      (db, .badRequest (StepsSerializer.run_validation body)) := by
  simp [StepsViewSet.create, isEmpty_eq_false_of_ne_nil h]

theorem WorkoutViewSet.workout_update_of_errors (db : WorkoutDB) (caller : UserId)
    (pk : Nat) (body : WorkoutRequest) (isPatch : Bool) (w : Workout)
    (hobj : WorkoutViewSet.get_object db caller pk = some w)
    (h : (if isPatch then WorkoutSerializer.patch_validation body
          else WorkoutSerializer.run_validation body) ≠ []) :
    WorkoutViewSet.update db caller pk body isPatch =
      (db, .badRequest (if isPatch then WorkoutSerializer.patch_validation body
                        else WorkoutSerializer.run_validation body)) := by
  have huser := WorkoutViewSet.workout_get_object_owner hobj
  unfold WorkoutViewSet.update
  rw [hobj]
  simp [IsOwner.has_object_permission, huser, isEmpty_eq_false_of_ne_nil h]

theorem MealViewSet.meal_update_of_errors (db : MealDB) (caller : UserId)
    (pk : Nat) (body : MealRequest) (isPatch : Bool) (m : Meal)
    (hobj : MealViewSet.get_object db caller pk = some m)
    (h : (if isPatch then MealSerializer.patch_validation body
          else MealSerializer.run_validation body) ≠ []) :
    MealViewSet.update db caller pk body isPatch =
      (db, .badRequest (if isPatch then MealSerializer.patch_validation body
                        else MealSerializer.run_validation body)) := by
  have huser := MealViewSet.meal_get_object_owner hobj
  unfold MealViewSet.update
  rw [hobj]
  simp [IsOwner.has_object_permission, huser, isEmpty_eq_false_of_ne_nil h]

theorem StepsViewSet.steps_update_of_errors (db : StepsDB) (caller : UserId)
    (pk : Nat) (body : StepsRequest) (isPatch : Bool) (s : Steps)
    (hobj : StepsViewSet.get_object db caller pk = some s)
    (h : (if isPatch then StepsSerializer.patch_validation body
          else StepsSerializer.run_validation body) ≠ []) :
    StepsViewSet.update db caller pk body isPatch =
      (db, .badRequest (if isPatch then StepsSerializer.patch_validation body
                        else StepsSerializer.run_validation body)) := by
  have huser := StepsViewSet.steps_get_object_owner hobj
  unfold StepsViewSet.update
  rw [hobj]
  simp [IsOwner.has_object_permission, huser, isEmpty_eq_false_of_ne_nil h]

theorem WorkoutViewSet.workout_update_of_valid (db : WorkoutDB) (caller : UserId)
    (pk : Nat) (body : WorkoutRequest) (isPatch : Bool) (w : Workout)
    (hobj : WorkoutViewSet.get_object db caller pk = some w)
    (h : (if isPatch then WorkoutSerializer.patch_validation body
          else WorkoutSerializer.run_validation body) = []) :
    WorkoutViewSet.update db caller pk body isPatch =
      ({ db with rows := db.rows.map (fun x =>
          if x.id == pk then WorkoutSerializer.apply_update w body else x) },
       .ok (WorkoutSerializer.apply_update w body)) := by
  have huser := WorkoutViewSet.workout_get_object_owner hobj
  unfold WorkoutViewSet.update
  rw [hobj]
  simp [IsOwner.has_object_permission, huser, h]

theorem MealViewSet.meal_update_of_valid (db : MealDB) (caller : UserId)
    (pk : Nat) (body : MealRequest) (isPatch : Bool) (m : Meal)
    (hobj : MealViewSet.get_object db caller pk = some m)
    (h : (if isPatch then MealSerializer.patch_validation body
          else MealSerializer.run_validation body) = []) :
    MealViewSet.update db caller pk body isPatch =
      ({ db with rows := db.rows.map (fun x =>
          if x.id == pk then MealSerializer.apply_update m body else x) },
       .ok (MealSerializer.apply_update m body)) := by
  have huser := MealViewSet.meal_get_object_owner hobj
  unfold MealViewSet.update
  rw [hobj]
  simp [IsOwner.has_object_permission, huser, h]

theorem StepsViewSet.steps_update_of_valid (db : StepsDB) (caller : UserId)
    (pk : Nat) (body : StepsRequest) (isPatch : Bool) (s : Steps)
    (hobj : StepsViewSet.get_object db caller pk = some s)
    (h : (if isPatch then StepsSerializer.patch_validation body
          else StepsSerializer.run_validation body) = []) :
    StepsViewSet.update db caller pk body isPatch =
      ({ db with rows := db.rows.map (fun x =>
          if x.id == pk then StepsSerializer.apply_update s body else x) },
       .ok (StepsSerializer.apply_update s body)) := by
  have huser := StepsViewSet.steps_get_object_owner hobj
  unfold StepsViewSet.update
  rw [hobj]
  simp [IsOwner.has_object_permission, huser, h]

theorem WorkoutViewSet.workout_get_object_of_other {db : WorkoutDB} (hwf : db.Wf)
    {r : Workout} (hr : r ∈ db.rows) {B : UserId} (hB : r.user ≠ B) :
    WorkoutViewSet.get_object db B r.id = none := by
  have hp : db.rows.Pairwise (fun a b => a.id ≠ b.id) :=
    hwf.1.imp (fun h => h.1)
  exact find_in_other_queryset_eq_none Workout.user Workout.id hp hr hB

theorem MealViewSet.meal_get_object_of_other {db : MealDB} (hwf : db.Wf)
    {r : Meal} (hr : r ∈ db.rows) {B : UserId} (hB : r.user ≠ B) :
    MealViewSet.get_object db B r.id = none := by
  have hp : db.rows.Pairwise (fun a b => a.id ≠ b.id) :=
    hwf.1.imp (fun h => h.1)
  exact find_in_other_queryset_eq_none Meal.user Meal.id hp hr hB

theorem StepsViewSet.steps_get_object_of_other {db : StepsDB} (hwf : db.Wf)
    {r : Steps} (hr : r ∈ db.rows) {B : UserId} (hB : r.user ≠ B) :
    StepsViewSet.get_object db B r.id = none := by
  have hp : db.rows.Pairwise (fun a b => a.id ≠ b.id) :=
    hwf.1.imp (fun h => h.1)
  exact find_in_other_queryset_eq_none Steps.user Steps.id hp hr hB

/-- C7: each choice-metadata endpoint returns the schema's declared
`{value, label}` pairs in exact declaration order — for workouts the types are
`["cardio","strength","yoga","pilates","sports","other"]` — and the response
has a types key and a statuses key, except for Steps, whose response contains
only the statuses key and omits the types key. -/
theorem claim7_choice_metadata_order :
    WorkoutChoicesView.get.types =
      some [{ value := "cardio", label := "Cardio" },
            { value := "strength", label := "Strength" },
            { value := "yoga", label := "Yoga" },
            { value := "pilates", label := "Pilates" },
            { value := "sports", label := "Sports" },
            { value := "other", label := "Other" }] ∧
    WorkoutChoicesView.get.statuses.map ChoiceItem.value =
      ["planned", "in_progress", "completed", "cancelled"] ∧
    MealChoicesView.get.types.map (fun l => l.map ChoiceItem.value) =
      some ["breakfast", "lunch", "dinner", "snack"] ∧
    MealChoicesView.get.statuses.map ChoiceItem.value =
      ["planned", "consumed", "skipped"] ∧
    StepsChoicesView.get.types = none ∧
    StepsChoicesView.get.statuses.map ChoiceItem.value =
      ["planned", "in_progress", "completed"] :=
  ⟨rfl, rfl, rfl, rfl, rfl, rfl⟩

/-- C1: for every valid create on any of the three resource kinds, the owner
of the created record is the authenticated caller; the client-supplied owner
value is never used (the response and stored state are identical for every
supplied owner value). -/
theorem claim1_ownership_injection :
    (∀ (db : WorkoutDB) (caller : UserId) (body : WorkoutRequest),
      (∀ u, WorkoutViewSet.create db caller { body with user := u } =
            WorkoutViewSet.create db caller body) ∧
      ∀ db2 w, WorkoutViewSet.create db caller body = (db2, .created w) →
        w.user = caller) ∧
    (∀ (db : MealDB) (caller : UserId) (body : MealRequest),
      (∀ u, MealViewSet.create db caller { body with user := u } =
            MealViewSet.create db caller body) ∧
      ∀ db2 m, MealViewSet.create db caller body = (db2, .created m) →
        m.user = caller) ∧
    (∀ (db : StepsDB) (caller : UserId) (body : StepsRequest),
      (∀ u, StepsViewSet.create db caller { body with user := u } =
            StepsViewSet.create db caller body) ∧
      ∀ db2 s, StepsViewSet.create db caller body = (db2, .created s) →
        s.user = caller) := by
  refine ⟨fun db caller body => ⟨fun u => rfl, ?_⟩,
          fun db caller body => ⟨fun u => rfl, ?_⟩,
          fun db caller body => ⟨fun u => rfl, ?_⟩⟩ <;>
    intro db2 w h
  · by_cases hE : (WorkoutSerializer.run_validation body).isEmpty <;>
      simp [WorkoutViewSet.create, hE] at h
    obtain ⟨-, h2⟩ := h
    subst h2
    rfl
  · by_cases hE : (MealSerializer.run_validation body).isEmpty <;>
      simp [MealViewSet.create, hE] at h
    obtain ⟨-, h2⟩ := h
    subst h2
    rfl
  · by_cases hE : (StepsSerializer.run_validation body).isEmpty <;>
      simp [StepsViewSet.create, hE] at h
    obtain ⟨-, h2⟩ := h
    subst h2
    rfl

/-- C1 witness: a concrete valid create in which the body supplies a different
owner value; the created record is owned by the caller. -/
theorem claim1_ownership_injection_witness :
    (∃ db2 w, WorkoutViewSet.create { rows := [] } 1
        { user := some 99, date := some 3, workout_type := some "cardio",
          duration := some 30, calories_burned := some 250 } = (db2, .created w)
      ∧ w.user = 1) := by
  refine ⟨_, _, rfl, ?_⟩
  exact (claim1_ownership_injection.1 { rows := [] } 1
    { user := some 99, date := some 3, workout_type := some "cardio",
      duration := some 30, calories_burned := some 250 }).2 _ _ rfl

/-- C10: when a create request omits the status field, the created record's
status is the model-level default "planned", for every resource kind that
declares a status field. -/
theorem claim10_default_status :
    (∀ (db : WorkoutDB) (caller : UserId) (body : WorkoutRequest) db2 w,
       body.status = none →
       WorkoutViewSet.create db caller body = (db2, .created w) →
       w.status = "planned") ∧
    (∀ (db : MealDB) (caller : UserId) (body : MealRequest) db2 m,
       body.status = none →
       MealViewSet.create db caller body = (db2, .created m) →
       m.status = "planned") ∧
    (∀ (db : StepsDB) (caller : UserId) (body : StepsRequest) db2 s,
       body.status = none →
       StepsViewSet.create db caller body = (db2, .created s) →
       s.status = "planned") := by
  refine ⟨?_, ?_, ?_⟩ <;> intro db caller body db2 w hs h
  · by_cases hE : (WorkoutSerializer.run_validation body).isEmpty <;>
      simp [WorkoutViewSet.create, hE] at h
    obtain ⟨-, h2⟩ := h
    subst h2
    simp [hs]
  · by_cases hE : (MealSerializer.run_validation body).isEmpty <;>
      simp [MealViewSet.create, hE] at h
    obtain ⟨-, h2⟩ := h
    subst h2
    simp [hs]
  · by_cases hE : (StepsSerializer.run_validation body).isEmpty <;>
      simp [StepsViewSet.create, hE] at h
    obtain ⟨-, h2⟩ := h
    subst h2
    simp [hs]

/-- C10 witness: a concrete create omitting status yields a record whose
status is "planned". -/
theorem claim10_default_status_witness :
    ∃ db2 s, StepsViewSet.create { rows := [] } 4
        { date := some 11, total_steps := some 8500 } = (db2, .created s)
      ∧ s.status = "planned" := by
  refine ⟨_, _, rfl, ?_⟩
  exact claim10_default_status.2.2 { rows := [] } 4
    { date := some 11, total_steps := some 8500 } _ _ rfl rfl

/-- C4: every create or update carrying a choice-field value outside the
declared enumeration (workout_type, meal_type, or status) returns 400 with a
field-level error map enumerating every invalid field (not just the first),
and nothing is persisted: the table is unchanged. -/
theorem claim4_invalid_choice_rejected :
    (∀ (db : WorkoutDB) (caller : UserId) (body : WorkoutRequest) t,
       body.workout_type = some t →
       choiceFieldOk Workout.WORKOUT_TYPE_CHOICES t = false →
       (WorkoutViewSet.create db caller body).1 = db ∧
       ∃ errs, (WorkoutViewSet.create db caller body).2 = .badRequest errs ∧
         "workout_type" ∈ errs ∧
         ∀ s, body.status = some s →
           choiceFieldOk Workout.STATUS_CHOICES s = false → "status" ∈ errs) ∧
    (∀ (db : WorkoutDB) (caller : UserId) (body : WorkoutRequest) s,
       body.status = some s →
       choiceFieldOk Workout.STATUS_CHOICES s = false →
       (WorkoutViewSet.create db caller body).1 = db ∧
       ∃ errs, (WorkoutViewSet.create db caller body).2 = .badRequest errs ∧
         "status" ∈ errs) ∧
    (∀ (db : MealDB) (caller : UserId) (body : MealRequest) t,
       body.meal_type = some t →
       choiceFieldOk Meal.MEAL_TYPE_CHOICES t = false →
       (MealViewSet.create db caller body).1 = db ∧
       ∃ errs, (MealViewSet.create db caller body).2 = .badRequest errs ∧
         "meal_type" ∈ errs ∧
         ∀ s, body.status = some s →
           choiceFieldOk Meal.STATUS_CHOICES s = false → "status" ∈ errs) ∧
    (∀ (db : StepsDB) (caller : UserId) (body : StepsRequest) s,
       body.status = some s →
       choiceFieldOk Steps.STATUS_CHOICES s = false →
       (StepsViewSet.create db caller body).1 = db ∧
       ∃ errs, (StepsViewSet.create db caller body).2 = .badRequest errs ∧
         "status" ∈ errs) ∧
    (∀ (db : WorkoutDB) (caller : UserId) (pk : Nat) (body : WorkoutRequest)
       (isPatch : Bool) (w : Workout) t,
       WorkoutViewSet.get_object db caller pk = some w →
       body.workout_type = some t →
       choiceFieldOk Workout.WORKOUT_TYPE_CHOICES t = false →
       (WorkoutViewSet.update db caller pk body isPatch).1 = db ∧
       ∃ errs, (WorkoutViewSet.update db caller pk body isPatch).2 =
           .badRequest errs ∧ "workout_type" ∈ errs) ∧
    (∀ (db : MealDB) (caller : UserId) (pk : Nat) (body : MealRequest)
       (isPatch : Bool) (m : Meal) t,
       MealViewSet.get_object db caller pk = some m →
       body.meal_type = some t →
       choiceFieldOk Meal.MEAL_TYPE_CHOICES t = false →
       (MealViewSet.update db caller pk body isPatch).1 = db ∧
       ∃ errs, (MealViewSet.update db caller pk body isPatch).2 =
           .badRequest errs ∧ "meal_type" ∈ errs) ∧
    (∀ (db : StepsDB) (caller : UserId) (pk : Nat) (body : StepsRequest)
       (isPatch : Bool) (s : Steps) v,
       StepsViewSet.get_object db caller pk = some s →
       body.status = some v →
       choiceFieldOk Steps.STATUS_CHOICES v = false →
       (StepsViewSet.update db caller pk body isPatch).1 = db ∧
       ∃ errs, (StepsViewSet.update db caller pk body isPatch).2 =
           .badRequest errs ∧ "status" ∈ errs) := by
  refine ⟨?_, ?_, ?_, ?_, ?_, ?_, ?_⟩
  · intro db caller body t ht hbad
    have hmem : "workout_type" ∈ WorkoutSerializer.run_validation body := by
      rw [WorkoutSerializer.run_validation, ht]
      simp [List.mem_append, checkRequired, hbad]
    rw [WorkoutViewSet.workout_create_of_errors db caller body
      (List.ne_nil_of_mem hmem)]
    refine ⟨rfl, _, rfl, hmem, ?_⟩
    intro s hs hbad2
    rw [WorkoutSerializer.run_validation, hs]
    simp [List.mem_append, checkOptional, hbad2]
  · intro db caller body s hs hbad
    have hmem : "status" ∈ WorkoutSerializer.run_validation body := by
      rw [WorkoutSerializer.run_validation, hs]
      simp [List.mem_append, checkOptional, hbad]
    rw [WorkoutViewSet.workout_create_of_errors db caller body
      (List.ne_nil_of_mem hmem)]
    exact ⟨rfl, _, rfl, hmem⟩
  · intro db caller body t ht hbad
    have hmem : "meal_type" ∈ MealSerializer.run_validation body := by
      rw [MealSerializer.run_validation, ht]
      simp [List.mem_append, checkRequired, hbad]
    rw [MealViewSet.meal_create_of_errors db caller body (List.ne_nil_of_mem hmem)]
    refine ⟨rfl, _, rfl, hmem, ?_⟩
    intro s hs hbad2
    rw [MealSerializer.run_validation, hs]
    simp [List.mem_append, checkOptional, hbad2]
  · intro db caller body s hs hbad
    have hmem : "status" ∈ StepsSerializer.run_validation body := by
      rw [StepsSerializer.run_validation, hs]
      simp [List.mem_append, checkOptional, hbad]
    rw [StepsViewSet.steps_create_of_errors db caller body (List.ne_nil_of_mem hmem)]
    exact ⟨rfl, _, rfl, hmem⟩
  · intro db caller pk body isPatch w t hobj ht hbad
    have hmem : "workout_type" ∈
        (if isPatch then WorkoutSerializer.patch_validation body
         else WorkoutSerializer.run_validation body) := by
      cases isPatch <;>
        simp only [if_true, if_false, Bool.false_eq_true, ite_false, ite_true]
      · rw [WorkoutSerializer.run_validation, ht]
        simp [List.mem_append, checkRequired, hbad]
      · rw [WorkoutSerializer.patch_validation, ht]
        simp [List.mem_append, checkOptional, hbad]
    rw [WorkoutViewSet.workout_update_of_errors db caller pk body isPatch w hobj
      (List.ne_nil_of_mem hmem)]
    exact ⟨rfl, _, rfl, hmem⟩
  · intro db caller pk body isPatch m t hobj ht hbad
    have hmem : "meal_type" ∈
        (if isPatch then MealSerializer.patch_validation body
         else MealSerializer.run_validation body) := by
      cases isPatch <;>
        simp only [if_true, if_false, Bool.false_eq_true, ite_false, ite_true]
      · rw [MealSerializer.run_validation, ht]
        simp [List.mem_append, checkRequired, hbad]
      · rw [MealSerializer.patch_validation, ht]
        simp [List.mem_append, checkOptional, hbad]
    rw [MealViewSet.meal_update_of_errors db caller pk body isPatch m hobj
      (List.ne_nil_of_mem hmem)]
    exact ⟨rfl, _, rfl, hmem⟩
  · intro db caller pk body isPatch s v hobj hv hbad
    have hmem : "status" ∈
        (if isPatch then StepsSerializer.patch_validation body
         else StepsSerializer.run_validation body) := by
      cases isPatch <;>
        simp only [if_true, if_false, Bool.false_eq_true, ite_false, ite_true]
      · rw [StepsSerializer.run_validation, hv]
        simp [List.mem_append, checkOptional, hbad]
      · rw [StepsSerializer.patch_validation, hv]
        simp [List.mem_append, checkOptional, hbad]
    rw [StepsViewSet.steps_update_of_errors db caller pk body isPatch s hobj
      (List.ne_nil_of_mem hmem)]
    exact ⟨rfl, _, rfl, hmem⟩

/-- C4 witness: a concrete workout create with an invalid workout_type and an
invalid status is rejected with both fields in the error map and the table
unchanged. -/
theorem claim4_invalid_choice_rejected_witness :
    (WorkoutViewSet.create { rows := [] } 3
        { date := some 1, workout_type := some "invalid_type",
          duration := some 30, calories_burned := some 250,
          status := some "bogus" }).1 = { rows := [] } ∧
    ∃ errs, (WorkoutViewSet.create { rows := [] } 3
        { date := some 1, workout_type := some "invalid_type",
          duration := some 30, calories_burned := some 250,
          status := some "bogus" }).2 = .badRequest errs ∧
      "workout_type" ∈ errs ∧ "status" ∈ errs := by
  obtain ⟨h1, errs, h2, h3, h4⟩ := claim4_invalid_choice_rejected.1
    { rows := [] } 3
    { date := some 1, workout_type := some "invalid_type",
      duration := some 30, calories_burned := some 250,
      status := some "bogus" } "invalid_type" rfl (by decide)
  exact ⟨h1, errs, h2, h3, h4 "bogus" rfl (by decide)⟩

/-- C3 counterexample: the claim says a create with duration equal to 0 is
rejected with a 400; on the code a workout create with `duration = 0` (all
other fields valid) succeeds with 201 and stores the record, because Django's
`PositiveIntegerField` admits 0. -/
theorem claim3_zero_duration_counterexample :
    WorkoutViewSet.create { rows := [] } 7
        { date := some 20251029, workout_type := some "strength",
          duration := some 0, calories_burned := some 180 }
      = ({ rows := [{ id := 1, user := 7, date := 20251029,
                      workout_type := "strength", duration := 0,
                      calories_burned := 180, status := "planned",
                      description := none, created_at := 1 }],
           nextId := 2, nextTime := 2 },
         .created { id := 1, user := 7, date := 20251029,
                    workout_type := "strength", duration := 0,
                    calories_burned := 180, status := "planned",
                    description := none, created_at := 1 })
    ∧ (WorkoutViewSet.create { rows := [] } 7
        { date := some 20251029, workout_type := some "strength",
          duration := some 0, calories_burned := some 180 }).2.status_code
        = 201 :=
  ⟨rfl, rfl⟩

/-- C3 (amended): validation rejects numeric fields out of range per the
declared constraints, which admit 0 everywhere: `duration`,
`calories_burned`, `calories` and `total_steps` must be ≥ 0 (and within the
2147483647 integer bound); a negative value — e.g. `total_steps: -100` — is
rejected with a field error on that field and no record is created, while 0
is accepted for all four fields. -/
theorem claim3_numeric_bounds :
    (∀ (body : WorkoutRequest) d, body.duration = some d →
       ("duration" ∈ WorkoutSerializer.run_validation body ↔
         d < 0 ∨ 2147483647 < d)) ∧
    (∀ (body : WorkoutRequest) c, body.calories_burned = some c →
       ("calories_burned" ∈ WorkoutSerializer.run_validation body ↔
         c < 0 ∨ 2147483647 < c)) ∧
    (∀ (body : MealRequest) c, body.calories = some c →
       ("calories" ∈ MealSerializer.run_validation body ↔
         c < 0 ∨ 2147483647 < c)) ∧
    (∀ (body : StepsRequest) t, body.total_steps = some t →
       ("total_steps" ∈ StepsSerializer.run_validation body ↔
         t < 0 ∨ 2147483647 < t)) ∧
    (∀ (db : WorkoutDB) (caller : UserId) (body : WorkoutRequest),
       WorkoutSerializer.run_validation body ≠ [] →
       WorkoutViewSet.create db caller body =
         (db, .badRequest (WorkoutSerializer.run_validation body))) ∧
    (∀ (db : MealDB) (caller : UserId) (body : MealRequest),
       MealSerializer.run_validation body ≠ [] →
       MealViewSet.create db caller body =
         (db, .badRequest (MealSerializer.run_validation body))) ∧
    (∀ (db : StepsDB) (caller : UserId) (body : StepsRequest),
       StepsSerializer.run_validation body ≠ [] →
       StepsViewSet.create db caller body =
         (db, .badRequest (StepsSerializer.run_validation body))) ∧
    (∀ (db : StepsDB) (caller : UserId) (body : StepsRequest),
       body.total_steps = some (-100) →
       (StepsViewSet.create db caller body).1 = db ∧
       ∃ errs, (StepsViewSet.create db caller body).2 = .badRequest errs ∧
         "total_steps" ∈ errs) := by
  have hDur : ∀ (body : WorkoutRequest) d, body.duration = some d →
      ("duration" ∈ WorkoutSerializer.run_validation body ↔
        d < 0 ∨ 2147483647 < d) := by
    intro body d hd
    have h1 : "duration" ∉ checkRequired "date" body.date (fun _ => true) :=
      not_mem_checkRequired (by decide) _ _
    have h2 : "duration" ∉ checkRequired "workout_type" body.workout_type
        (choiceFieldOk Workout.WORKOUT_TYPE_CHOICES) :=
      not_mem_checkRequired (by decide) _ _
    have h3 : "duration" ∉ checkRequired "calories_burned" body.calories_burned
        positiveIntFieldOk :=
      not_mem_checkRequired (by decide) _ _
    have h4 : "duration" ∉ checkOptional "status" body.status
        (choiceFieldOk Workout.STATUS_CHOICES) :=
      not_mem_checkOptional (by decide) _ _
    rw [WorkoutSerializer.run_validation, hd]
    simp only [List.mem_append, h1, h2, h3, h4, false_or, or_false]
    rw [mem_checkRequired_self_iff]
    simp [positiveIntFieldOk]
    omega
  have hCal : ∀ (body : WorkoutRequest) c, body.calories_burned = some c →
      ("calories_burned" ∈ WorkoutSerializer.run_validation body ↔
        c < 0 ∨ 2147483647 < c) := by
    intro body c hc
    have h1 : "calories_burned" ∉ checkRequired "date" body.date
        (fun _ => true) := not_mem_checkRequired (by decide) _ _
    have h2 : "calories_burned" ∉ checkRequired "workout_type"
        body.workout_type (choiceFieldOk Workout.WORKOUT_TYPE_CHOICES) :=
      not_mem_checkRequired (by decide) _ _
    have h3 : "calories_burned" ∉ checkRequired "duration" body.duration
        positiveIntFieldOk :=
      not_mem_checkRequired (by decide) _ _
    have h4 : "calories_burned" ∉ checkOptional "status" body.status
        (choiceFieldOk Workout.STATUS_CHOICES) :=
      not_mem_checkOptional (by decide) _ _
    rw [WorkoutSerializer.run_validation, hc]
    simp only [List.mem_append, h1, h2, h3, h4, false_or, or_false]
    rw [mem_checkRequired_self_iff]
    simp [positiveIntFieldOk]
    omega
  have hMeal : ∀ (body : MealRequest) c, body.calories = some c →
      ("calories" ∈ MealSerializer.run_validation body ↔
        c < 0 ∨ 2147483647 < c) := by
    intro body c hc
    have h1 : "calories" ∉ checkRequired "date" body.date (fun _ => true) :=
      not_mem_checkRequired (by decide) _ _
    have h2 : "calories" ∉ checkRequired "meal_type" body.meal_type
        (choiceFieldOk Meal.MEAL_TYPE_CHOICES) :=
      not_mem_checkRequired (by decide) _ _
    have h3 : "calories" ∉ checkRequired "food_name" body.food_name
        (fun s => decide (0 < s.length) && decide (s.length ≤ 255)) :=
      not_mem_checkRequired (by decide) _ _
    have h4 : "calories" ∉ checkOptional "status" body.status
        (choiceFieldOk Meal.STATUS_CHOICES) :=
      not_mem_checkOptional (by decide) _ _
    rw [MealSerializer.run_validation, hc]
    simp only [List.mem_append, h1, h2, h3, h4, false_or, or_false]
    rw [mem_checkRequired_self_iff]
    simp [positiveIntFieldOk]
    omega
  have hSteps : ∀ (body : StepsRequest) t, body.total_steps = some t →
      ("total_steps" ∈ StepsSerializer.run_validation body ↔
        t < 0 ∨ 2147483647 < t) := by
    intro body t ht
    have h1 : "total_steps" ∉ checkRequired "date" body.date (fun _ => true) :=
      not_mem_checkRequired (by decide) _ _
    have h2 : "total_steps" ∉ checkOptional "status" body.status
        (choiceFieldOk Steps.STATUS_CHOICES) :=
      not_mem_checkOptional (by decide) _ _
    rw [StepsSerializer.run_validation, ht]
    simp only [List.mem_append, h1, h2, false_or, or_false]
    rw [mem_checkRequired_self_iff]
    simp [positiveIntFieldOk]
    omega
  have hCreateW : ∀ (db : WorkoutDB) (caller : UserId) (body : WorkoutRequest),
      WorkoutSerializer.run_validation body ≠ [] →
      WorkoutViewSet.create db caller body =
        (db, .badRequest (WorkoutSerializer.run_validation body)) := by
    intro db caller body h
    have hE : (WorkoutSerializer.run_validation body).isEmpty = false := by
      rcases hl : WorkoutSerializer.run_validation body with _ | ⟨a, l⟩
      · exact absurd hl h
      · rfl
    simp [WorkoutViewSet.create, hE]
  have hCreateM : ∀ (db : MealDB) (caller : UserId) (body : MealRequest),
      MealSerializer.run_validation body ≠ [] →
      MealViewSet.create db caller body =
        (db, .badRequest (MealSerializer.run_validation body)) := by
    intro db caller body h
    have hE : (MealSerializer.run_validation body).isEmpty = false := by
      rcases hl : MealSerializer.run_validation body with _ | ⟨a, l⟩
      · exact absurd hl h
      · rfl
    simp [MealViewSet.create, hE]
  have hCreateS : ∀ (db : StepsDB) (caller : UserId) (body : StepsRequest),
      StepsSerializer.run_validation body ≠ [] →
      StepsViewSet.create db caller body =
        (db, .badRequest (StepsSerializer.run_validation body)) := by
    intro db caller body h
    have hE : (StepsSerializer.run_validation body).isEmpty = false := by
      rcases hl : StepsSerializer.run_validation body with _ | ⟨a, l⟩
      · exact absurd hl h
      · rfl
    simp [StepsViewSet.create, hE]
  refine ⟨hDur, hCal, hMeal, hSteps, hCreateW, hCreateM, hCreateS, ?_⟩
  intro db caller body ht
  have hmem : "total_steps" ∈ StepsSerializer.run_validation body :=
    (hSteps body _ ht).mpr (Or.inl (by norm_num))
  have hne : StepsSerializer.run_validation body ≠ [] :=
    List.ne_nil_of_mem hmem
  rw [hCreateS db caller body hne]
  exact ⟨rfl, _, rfl, hmem⟩

/-- C3 witness: the concrete scenario — a steps create with
`total_steps = -100` returns 400 with a field error on total_steps and leaves
the table unchanged, and a negative duration is likewise an error while 0 is
not. -/
theorem claim3_numeric_bounds_witness :
    ((StepsViewSet.create { rows := [] } 2
        { date := some 5, total_steps := some (-100) }).1
      = { rows := [] } ∧
     ∃ errs, (StepsViewSet.create { rows := [] } 2
        { date := some 5, total_steps := some (-100) }).2
        = .badRequest errs ∧ "total_steps" ∈ errs) ∧
    ("duration" ∈ WorkoutSerializer.run_validation
        { date := some 1, workout_type := some "cardio",
          duration := some (-5), calories_burned := some 10 } ↔
      ((-5 : Int) < 0 ∨ (2147483647 : Int) < -5)) ∧
    ("duration" ∈ WorkoutSerializer.run_validation
        { date := some 1, workout_type := some "cardio",
          duration := some 0, calories_burned := some 10 } ↔
      ((0 : Int) < 0 ∨ (2147483647 : Int) < 0)) := by
  refine ⟨claim3_numeric_bounds.2.2.2.2.2.2.2 { rows := [] } 2
      { date := some 5, total_steps := some (-100) } rfl, ?_, ?_⟩
  · exact claim3_numeric_bounds.1
      { date := some 1, workout_type := some "cardio",
        duration := some (-5), calories_burned := some 10 } (-5) rfl
  · exact claim3_numeric_bounds.1
      { date := some 1, workout_type := some "cardio",
        duration := some 0, calories_burned := some 10 } 0 rfl

/-- C2: for every record R owned by user A and every other user B, a GET,
PUT, PATCH, or DELETE by B on R's id answers 404 Not Found with no state
change — exactly the response a nonexistent id gets — and no request on any
of these endpoints ever answers 403. -/
theorem claim2_cross_owner_not_found :
    (∀ (db : WorkoutDB) (A B : UserId) (r : Workout) (body : WorkoutRequest)
       (isPatch : Bool),
       db.Wf → r ∈ db.rows → r.user = A → B ≠ A →
       WorkoutViewSet.retrieve db B r.id = .notFound ∧
       WorkoutViewSet.update db B r.id body isPatch = (db, .notFound) ∧
       WorkoutViewSet.destroy db B r.id = (db, .notFound)) ∧
    (∀ (db : WorkoutDB) (caller : UserId) (pk : Nat) (body : WorkoutRequest)
       (isPatch : Bool),
       WorkoutViewSet.retrieve db caller pk ≠ .forbidden ∧
       (WorkoutViewSet.update db caller pk body isPatch).2 ≠ .forbidden ∧
       (WorkoutViewSet.destroy db caller pk).2 ≠ .forbidden) ∧
    (∀ (db : MealDB) (A B : UserId) (r : Meal) (body : MealRequest)
       (isPatch : Bool),
       db.Wf → r ∈ db.rows → r.user = A → B ≠ A →
       MealViewSet.retrieve db B r.id = .notFound ∧
       MealViewSet.update db B r.id body isPatch = (db, .notFound) ∧
       MealViewSet.destroy db B r.id = (db, .notFound)) ∧
    (∀ (db : MealDB) (caller : UserId) (pk : Nat) (body : MealRequest)
       (isPatch : Bool),
       MealViewSet.retrieve db caller pk ≠ .forbidden ∧
       (MealViewSet.update db caller pk body isPatch).2 ≠ .forbidden ∧
       (MealViewSet.destroy db caller pk).2 ≠ .forbidden) ∧
    (∀ (db : StepsDB) (A B : UserId) (r : Steps) (body : StepsRequest)
       (isPatch : Bool),
       db.Wf → r ∈ db.rows → r.user = A → B ≠ A →
       StepsViewSet.retrieve db B r.id = .notFound ∧
       StepsViewSet.update db B r.id body isPatch = (db, .notFound) ∧
       StepsViewSet.destroy db B r.id = (db, .notFound)) ∧
    (∀ (db : StepsDB) (caller : UserId) (pk : Nat) (body : StepsRequest)
       (isPatch : Bool),
       StepsViewSet.retrieve db caller pk ≠ .forbidden ∧
       (StepsViewSet.update db caller pk body isPatch).2 ≠ .forbidden ∧
       (StepsViewSet.destroy db caller pk).2 ≠ .forbidden) := by
  refine ⟨?_, ?_, ?_, ?_, ?_, ?_⟩
  · intro db A B r body isPatch hwf hr hA hB
    subst hA
    have hnone := WorkoutViewSet.workout_get_object_of_other hwf hr (Ne.symm hB)
    exact ⟨by simp [WorkoutViewSet.retrieve, hnone],
           by simp [WorkoutViewSet.update, hnone],
           by simp [WorkoutViewSet.destroy, hnone]⟩
  · intro db caller pk body isPatch
    rcases hobj : WorkoutViewSet.get_object db caller pk with _ | w
    · exact ⟨by simp [WorkoutViewSet.retrieve, hobj],
             by simp [WorkoutViewSet.update, hobj],
             by simp [WorkoutViewSet.destroy, hobj]⟩
    · have huser := WorkoutViewSet.workout_get_object_owner hobj
      refine ⟨by simp [WorkoutViewSet.retrieve, hobj,
        IsOwner.has_object_permission, huser], ?_,
        by simp [WorkoutViewSet.destroy, hobj,
          IsOwner.has_object_permission, huser]⟩
      by_cases hE : (if isPatch then WorkoutSerializer.patch_validation body
          else WorkoutSerializer.run_validation body).isEmpty <;>
        simp [WorkoutViewSet.update, hobj, IsOwner.has_object_permission,
          huser, hE]
  · intro db A B r body isPatch hwf hr hA hB
    subst hA
    have hnone := MealViewSet.meal_get_object_of_other hwf hr (Ne.symm hB)
    exact ⟨by simp [MealViewSet.retrieve, hnone],
           by simp [MealViewSet.update, hnone],
           by simp [MealViewSet.destroy, hnone]⟩
  · intro db caller pk body isPatch
    rcases hobj : MealViewSet.get_object db caller pk with _ | m
    · exact ⟨by simp [MealViewSet.retrieve, hobj],
             by simp [MealViewSet.update, hobj],
             by simp [MealViewSet.destroy, hobj]⟩
    · have huser := MealViewSet.meal_get_object_owner hobj
      refine ⟨by simp [MealViewSet.retrieve, hobj,
        IsOwner.has_object_permission, huser], ?_,
        by simp [MealViewSet.destroy, hobj,
          IsOwner.has_object_permission, huser]⟩
      by_cases hE : (if isPatch then MealSerializer.patch_validation body
          else MealSerializer.run_validation body).isEmpty <;>
        simp [MealViewSet.update, hobj, IsOwner.has_object_permission,
          huser, hE]
  · intro db A B r body isPatch hwf hr hA hB
    subst hA
    have hnone := StepsViewSet.steps_get_object_of_other hwf hr (Ne.symm hB)
    exact ⟨by simp [StepsViewSet.retrieve, hnone],
           by simp [StepsViewSet.update, hnone],
           by simp [StepsViewSet.destroy, hnone]⟩
  · intro db caller pk body isPatch
    rcases hobj : StepsViewSet.get_object db caller pk with _ | s
    · exact ⟨by simp [StepsViewSet.retrieve, hobj],
             by simp [StepsViewSet.update, hobj],
             by simp [StepsViewSet.destroy, hobj]⟩
    · have huser := StepsViewSet.steps_get_object_owner hobj
      refine ⟨by simp [StepsViewSet.retrieve, hobj,
        IsOwner.has_object_permission, huser], ?_,
        by simp [StepsViewSet.destroy, hobj,
          IsOwner.has_object_permission, huser]⟩
      by_cases hE : (if isPatch then StepsSerializer.patch_validation body
          else StepsSerializer.run_validation body).isEmpty <;>
        simp [StepsViewSet.update, hobj, IsOwner.has_object_permission,
          huser, hE]

/-- C2 witness: user 2's GET/PUT/PATCH/DELETE on the sample workout of user 1
all answer 404 with no state change. -/
theorem claim2_cross_owner_not_found_witness :
    WorkoutViewSet.retrieve sampleWorkoutDB 2 sampleWorkout.id = .notFound ∧
    WorkoutViewSet.update sampleWorkoutDB 2 sampleWorkout.id
      { status := some "in_progress" } true = (sampleWorkoutDB, .notFound) ∧
    WorkoutViewSet.destroy sampleWorkoutDB 2 sampleWorkout.id =
      (sampleWorkoutDB, .notFound) :=
  claim2_cross_owner_not_found.1 sampleWorkoutDB 1 2 sampleWorkout
    { status := some "in_progress" } true (by decide)
    (by simp [sampleWorkoutDB]) rfl (by decide)

/-- C6: on every update (full or partial), owner and creation timestamp are
immutable — a client-supplied value for them is silently ignored and the
request outcome is unchanged — and on a partial update only the submitted
mutable fields change: every field absent from the body keeps its stored
value. -/
theorem claim6_immutable_update_fields :
    (∀ (db : WorkoutDB) (caller : UserId) (pk : Nat) (body : WorkoutRequest)
       (isPatch : Bool),
       (∀ u t2, WorkoutViewSet.update db caller pk
           { body with user := u, created_at := t2 } isPatch =
         WorkoutViewSet.update db caller pk body isPatch) ∧
       ∀ (w : Workout), WorkoutViewSet.get_object db caller pk = some w →
         ∀ db2 w2,
           WorkoutViewSet.update db caller pk body isPatch = (db2, .ok w2) →
           w2.user = w.user ∧ w2.created_at = w.created_at ∧ w2.id = w.id ∧
           (body.date = none → w2.date = w.date) ∧
           (body.workout_type = none → w2.workout_type = w.workout_type) ∧
           (body.duration = none → w2.duration = w.duration) ∧
           (body.calories_burned = none →
             w2.calories_burned = w.calories_burned) ∧
           (body.status = none → w2.status = w.status) ∧
           (body.description = none → w2.description = w.description)) ∧
    (∀ (db : MealDB) (caller : UserId) (pk : Nat) (body : MealRequest)
       (isPatch : Bool),
       (∀ u t2, MealViewSet.update db caller pk
           { body with user := u, created_at := t2 } isPatch =
         MealViewSet.update db caller pk body isPatch) ∧
       ∀ (m : Meal), MealViewSet.get_object db caller pk = some m →
         ∀ db2 m2,
           MealViewSet.update db caller pk body isPatch = (db2, .ok m2) →
           m2.user = m.user ∧ m2.created_at = m.created_at ∧ m2.id = m.id ∧
           (body.date = none → m2.date = m.date) ∧
           (body.meal_type = none → m2.meal_type = m.meal_type) ∧
           (body.food_name = none → m2.food_name = m.food_name) ∧
           (body.calories = none → m2.calories = m.calories) ∧
           (body.status = none → m2.status = m.status) ∧
           (body.description = none → m2.description = m.description)) ∧
    (∀ (db : StepsDB) (caller : UserId) (pk : Nat) (body : StepsRequest)
       (isPatch : Bool),
       (∀ u t2, StepsViewSet.update db caller pk
           { body with user := u, created_at := t2 } isPatch =
         StepsViewSet.update db caller pk body isPatch) ∧
       ∀ (s : Steps), StepsViewSet.get_object db caller pk = some s →
         ∀ db2 s2,
           StepsViewSet.update db caller pk body isPatch = (db2, .ok s2) →
           s2.user = s.user ∧ s2.created_at = s.created_at ∧ s2.id = s.id ∧
           (body.date = none → s2.date = s.date) ∧
           (body.total_steps = none → s2.total_steps = s.total_steps) ∧
           (body.status = none → s2.status = s.status) ∧
           (body.description = none → s2.description = s.description)) := by
  refine ⟨?_, ?_, ?_⟩ <;> intro db caller pk body isPatch <;>
    refine ⟨fun u t2 => rfl, ?_⟩ <;> intro w hobj db2 w2 h
  · by_cases hE : (if isPatch then WorkoutSerializer.patch_validation body
        else WorkoutSerializer.run_validation body) = []
    · rw [WorkoutViewSet.workout_update_of_valid db caller pk body isPatch w hobj hE]
        at h
      simp only [Prod.mk.injEq, Resp.ok.injEq] at h
      obtain ⟨-, h2⟩ := h
      subst h2
      refine ⟨rfl, rfl, rfl, ?_, ?_, ?_, ?_, ?_, ?_⟩ <;> intro hf <;>
        simp [WorkoutSerializer.apply_update, hf, Option.orElse]
    · rw [WorkoutViewSet.workout_update_of_errors db caller pk body isPatch w hobj hE]
        at h
      simp at h
  · by_cases hE : (if isPatch then MealSerializer.patch_validation body
        else MealSerializer.run_validation body) = []
    · rw [MealViewSet.meal_update_of_valid db caller pk body isPatch w hobj hE] at h
      simp only [Prod.mk.injEq, Resp.ok.injEq] at h
      obtain ⟨-, h2⟩ := h
      subst h2
      refine ⟨rfl, rfl, rfl, ?_, ?_, ?_, ?_, ?_, ?_⟩ <;> intro hf <;>
        simp [MealSerializer.apply_update, hf, Option.orElse]
    · rw [MealViewSet.meal_update_of_errors db caller pk body isPatch w hobj hE]
        at h
      simp at h
  · by_cases hE : (if isPatch then StepsSerializer.patch_validation body
        else StepsSerializer.run_validation body) = []
    · rw [StepsViewSet.steps_update_of_valid db caller pk body isPatch w hobj hE]
        at h
      simp only [Prod.mk.injEq, Resp.ok.injEq] at h
      obtain ⟨-, h2⟩ := h
      subst h2
      refine ⟨rfl, rfl, rfl, ?_, ?_, ?_, ?_⟩ <;> intro hf <;>
        simp [StepsSerializer.apply_update, hf, Option.orElse]
    · rw [StepsViewSet.steps_update_of_errors db caller pk body isPatch w hobj hE]
        at h
      simp at h

/-- C6 witness: a concrete PATCH of only the status on the sample workout —
with the body also trying to set owner and creation timestamp — succeeds, and
the stored record keeps its owner, creation timestamp and every unsubmitted
field. -/
theorem claim6_immutable_update_fields_witness :
    (WorkoutViewSet.update sampleWorkoutDB 1 1
        { user := some 42, created_at := some 77,
          status := some "in_progress" } true =
      WorkoutViewSet.update sampleWorkoutDB 1 1
        { status := some "in_progress" } true) ∧
    ((WorkoutViewSet.update sampleWorkoutDB 1 1
        { status := some "in_progress" } true).2.status_code = 200 ∧
     ∀ db2 w2, WorkoutViewSet.update sampleWorkoutDB 1 1
         { status := some "in_progress" } true = (db2, .ok w2) →
       w2.user = sampleWorkout.user ∧
       w2.created_at = sampleWorkout.created_at ∧
       w2.date = sampleWorkout.date ∧ w2.status = "in_progress") := by
  refine ⟨(claim6_immutable_update_fields.1 sampleWorkoutDB 1 1
    { status := some "in_progress" } true).1 (some 42) (some 77),
    rfl, ?_⟩
  intro db2 w2 h
  have hmain := (claim6_immutable_update_fields.1 sampleWorkoutDB 1 1
      { status := some "in_progress" } true).2 sampleWorkout rfl db2 w2 h
  refine ⟨hmain.1, hmain.2.1, hmain.2.2.2.1 rfl, ?_⟩
  have h2 : w2 = WorkoutSerializer.apply_update sampleWorkout
      { status := some "in_progress" } := by
    rw [WorkoutViewSet.workout_update_of_valid sampleWorkoutDB 1 1
      { status := some "in_progress" } true sampleWorkout rfl rfl] at h
    simp only [Prod.mk.injEq, Resp.ok.injEq] at h
    exact h.2.symm
  rw [h2]
  rfl

/-- C8: for every authenticated caller, a list request filtered by status=X
returns exactly the caller's records whose status equals X — every such record
and no other — and never a record of a different caller. -/
theorem claim8_status_filter_exact :
    (∀ (db : WorkoutDB) (caller : UserId) (X : String) (w : Workout),
       w ∈ WorkoutViewSet.list db caller
           { date := none, workout_type := none, status := some X } ↔
       w ∈ db.rows ∧ w.user = caller ∧ w.status = X) ∧
    (∀ (db : MealDB) (caller : UserId) (X : String) (m : Meal),
       m ∈ MealViewSet.list db caller
           { date := none, meal_type := none, status := some X } ↔
       m ∈ db.rows ∧ m.user = caller ∧ m.status = X) ∧
    (∀ (db : StepsDB) (caller : UserId) (X : String) (s : Steps),
       s ∈ StepsViewSet.list db caller { date := none, status := some X } ↔
       s ∈ db.rows ∧ s.user = caller ∧ s.status = X) := by
  refine ⟨?_, ?_, ?_⟩
  · intro db caller X w
    simp [WorkoutViewSet.list, WorkoutViewSet.get_queryset,
      List.mem_insertionSort, List.mem_filter, matchOpt, and_assoc]
    exact fun _ => And.comm
  · intro db caller X m
    simp [MealViewSet.list, MealViewSet.get_queryset,
      List.mem_insertionSort, List.mem_filter, matchOpt, and_assoc]
    exact fun _ => And.comm
  · intro db caller X s
    simp [StepsViewSet.list, StepsViewSet.get_queryset,
      List.mem_insertionSort, List.mem_filter, matchOpt, and_assoc]
    exact fun _ => And.comm

/-- C5: a list request without an explicit ordering parameter returns the
caller's filtered records sorted by date descending then creation timestamp
descending; the result is a permutation of the filtered queryset with pairwise
distinct creation timestamps (so the ordering is deterministic, ties on equal
dates broken strictly by creation timestamp), and creation keeps the
timestamps monotonically distinct by assignment order. -/
theorem claim5_default_ordering :
    (∀ (db : WorkoutDB) (caller : UserId) (f : WorkoutFilters)
       (body : WorkoutRequest), db.Wf →
       List.Sorted Workout.ord (WorkoutViewSet.list db caller f) ∧
       (WorkoutViewSet.list db caller f).Perm
         ((WorkoutViewSet.get_queryset db caller).filter
           (fun w => matchOpt f.date w.date &&
             matchOpt f.workout_type w.workout_type &&
             matchOpt f.status w.status)) ∧
       (WorkoutViewSet.list db caller f).Pairwise
         (fun a b => a.created_at ≠ b.created_at) ∧
       ((WorkoutViewSet.create db caller body).1).Wf) ∧
    (∀ (db : MealDB) (caller : UserId) (f : MealFilters)
       (body : MealRequest), db.Wf →
       List.Sorted Meal.ord (MealViewSet.list db caller f) ∧
       (MealViewSet.list db caller f).Perm
         ((MealViewSet.get_queryset db caller).filter
           (fun m => matchOpt f.date m.date &&
             matchOpt f.meal_type m.meal_type &&
             matchOpt f.status m.status)) ∧
       (MealViewSet.list db caller f).Pairwise
         (fun a b => a.created_at ≠ b.created_at) ∧
       ((MealViewSet.create db caller body).1).Wf) ∧
    (∀ (db : StepsDB) (caller : UserId) (f : StepsFilters)
       (body : StepsRequest), db.Wf →
       List.Sorted Steps.ord (StepsViewSet.list db caller f) ∧
       (StepsViewSet.list db caller f).Perm
         ((StepsViewSet.get_queryset db caller).filter
           (fun s => matchOpt f.date s.date && matchOpt f.status s.status)) ∧
       (StepsViewSet.list db caller f).Pairwise
         (fun a b => a.created_at ≠ b.created_at) ∧
       ((StepsViewSet.create db caller body).1).Wf) := by
  refine ⟨?_, ?_, ?_⟩
  · intro db caller f body hwf
    refine ⟨List.sorted_insertionSort _ _, List.perm_insertionSort _ _, ?_,
      hwf.workout_create_wf caller body⟩
    have hrows : db.rows.Pairwise (fun a b => a.created_at ≠ b.created_at) :=
      hwf.1.imp (fun h => h.2)
    have hfil : (((WorkoutViewSet.get_queryset db caller).filter
        (fun w => matchOpt f.date w.date &&
          matchOpt f.workout_type w.workout_type &&
          matchOpt f.status w.status))).Pairwise
        (fun a b => a.created_at ≠ b.created_at) :=
      List.Pairwise.sublist
        (List.Sublist.trans (List.filter_sublist _) (List.filter_sublist _))
        hrows
    exact ((List.perm_insertionSort _ _).pairwise_iff
      (fun h => Ne.symm h)).mpr hfil
  · intro db caller f body hwf
    refine ⟨List.sorted_insertionSort _ _, List.perm_insertionSort _ _, ?_,
      hwf.meal_create_wf caller body⟩
    have hrows : db.rows.Pairwise (fun a b => a.created_at ≠ b.created_at) :=
      hwf.1.imp (fun h => h.2)
    have hfil : (((MealViewSet.get_queryset db caller).filter
        (fun m => matchOpt f.date m.date &&
          matchOpt f.meal_type m.meal_type &&
          matchOpt f.status m.status))).Pairwise
        (fun a b => a.created_at ≠ b.created_at) :=
      List.Pairwise.sublist
        (List.Sublist.trans (List.filter_sublist _) (List.filter_sublist _))
        hrows
    exact ((List.perm_insertionSort _ _).pairwise_iff
      (fun h => Ne.symm h)).mpr hfil
  · intro db caller f body hwf
    refine ⟨List.sorted_insertionSort _ _, List.perm_insertionSort _ _, ?_,
      hwf.steps_create_wf caller body⟩
    have hrows : db.rows.Pairwise (fun a b => a.created_at ≠ b.created_at) :=
      hwf.1.imp (fun h => h.2)
    have hfil : (((StepsViewSet.get_queryset db caller).filter
        (fun s => matchOpt f.date s.date &&
          matchOpt f.status s.status))).Pairwise
        (fun a b => a.created_at ≠ b.created_at) :=
      List.Pairwise.sublist
        (List.Sublist.trans (List.filter_sublist _) (List.filter_sublist _))
        hrows
    exact ((List.perm_insertionSort _ _).pairwise_iff
      (fun h => Ne.symm h)).mpr hfil

/-- C5 witness: the sample workout table's unfiltered list is sorted by the
default ordering with pairwise distinct creation timestamps, and a concrete
create preserves the table invariant. -/
theorem claim5_default_ordering_witness :
    List.Sorted Workout.ord (WorkoutViewSet.list sampleWorkoutDB 1 {}) ∧
    (WorkoutViewSet.list sampleWorkoutDB 1 {}).Pairwise
      (fun a b => a.created_at ≠ b.created_at) ∧
    ((WorkoutViewSet.create sampleWorkoutDB 1
        { date := some 20, workout_type := some "cardio",
          duration := some 10, calories_burned := some 5 }).1).Wf := by
  have h := claim5_default_ordering.1 sampleWorkoutDB 1 {}
    { date := some 20, workout_type := some "cardio",
      duration := some 10, calories_burned := some 5 } (by decide)
  exact ⟨h.1, h.2.2.1, h.2.2.2⟩

/-- C9: registration creates an identity from full name, unique email, and a
password of minimum length 8; on success the response is the created identity
without the password (the serialized representation is independent of the
stored password); on failure — password shorter than 8, missing fields, or an
email already in use — the response is the field-level error map and no
identity is created. -/
theorem claim9_registration :
    (∀ (db : UserDB) (r : RegistrationRequest),
       UserRegistrationSerializer.run_validation db r = [] →
       ∃ u, (RegisterView.post db r).1.users = db.users ++ [u] ∧
         (RegisterView.post db r).2 =
           .created (UserRegistrationSerializer.to_representation u) ∧
         u.full_name = r.full_name.getD "" ∧ u.email = r.email.getD "" ∧
         u.id = db.nextId) ∧
    (∀ (u : User) (p : String),
       UserRegistrationSerializer.to_representation { u with password := p } =
       UserRegistrationSerializer.to_representation u) ∧
    (∀ (db : UserDB) (r : RegistrationRequest) (p : String),
       r.password = some p →
       ("password" ∈ UserRegistrationSerializer.run_validation db r ↔
         p.length < 8)) ∧
    (∀ (db : UserDB) (r : RegistrationRequest) (e : String),
       r.email = some e → db.users.any (fun u => u.email == e) = true →
       "email" ∈ UserRegistrationSerializer.run_validation db r) ∧
    (∀ (db : UserDB) (r : RegistrationRequest),
       (r.full_name = none →
         "full_name" ∈ UserRegistrationSerializer.run_validation db r) ∧
       (r.email = none →
         "email" ∈ UserRegistrationSerializer.run_validation db r) ∧
       (r.password = none →
         "password" ∈ UserRegistrationSerializer.run_validation db r)) ∧
    (∀ (db : UserDB) (r : RegistrationRequest),
       UserRegistrationSerializer.run_validation db r ≠ [] →
       RegisterView.post db r =
         (db, .badRequest (UserRegistrationSerializer.run_validation db r))) := by
  refine ⟨?_, fun u p => rfl, ?_, ?_, ?_, ?_⟩
  · intro db r h
    refine ⟨{ id := db.nextId, full_name := r.full_name.getD "",
              email := r.email.getD "", password := r.password.getD "" },
        ?_, ?_, rfl, rfl, rfl⟩ <;>
      simp [RegisterView.post, h]
  · intro db r p hp
    have h1 : "password" ∉ checkRequired "full_name" r.full_name
        (fun s => decide (0 < s.length)) := not_mem_checkRequired (by decide) _ _
    have h2 : "password" ∉ checkRequired "email" r.email
        (fun e => decide (0 < e.length) &&
          !(db.users.any (fun u => u.email == e))) :=
      not_mem_checkRequired (by decide) _ _
    rw [UserRegistrationSerializer.run_validation, hp]
    simp only [List.mem_append, h1, h2, false_or]
    rw [mem_checkRequired_self_iff]
    simp
  · intro db r e he hdup
    rw [UserRegistrationSerializer.run_validation, he]
    simp [List.mem_append, checkRequired, hdup]
  · intro db r
    refine ⟨?_, ?_, ?_⟩ <;> intro h <;>
      rw [UserRegistrationSerializer.run_validation, h] <;>
      simp [List.mem_append, checkRequired]
  · intro db r h
    simp [RegisterView.post, isEmpty_eq_false_of_ne_nil h]

/-- C9 witness: a concrete successful registration (password of length 11,
fresh email) stores exactly one new identity and returns it without the
password; a concrete short password and a concrete duplicate email are field
errors; and the serialized representation of the stored sample identity is
unchanged when its password changes. -/
theorem claim9_registration_witness :
    (∃ u, (RegisterView.post { users := [] }
        { full_name := some "First User", email := some "first@email.com",
          password := some "password123" }).1.users = [] ++ [u] ∧
      (RegisterView.post { users := [] }
        { full_name := some "First User", email := some "first@email.com",
          password := some "password123" }).2 =
        .created (UserRegistrationSerializer.to_representation u)) ∧
    ("password" ∈ UserRegistrationSerializer.run_validation { users := [] }
        { full_name := some "Short Pass User",
          email := some "shortpass@email.com", password := some "123" } ↔
      ("123".length < 8)) ∧
    "email" ∈ UserRegistrationSerializer.run_validation sampleUserDB
      { full_name := some "Second User", email := some "dup@email.com",
        password := some "pass1234" } ∧
    UserRegistrationSerializer.to_representation
      { id := 1, full_name := "First User", email := "dup@email.com",
        password := "changed" } =
    UserRegistrationSerializer.to_representation
      { id := 1, full_name := "First User", email := "dup@email.com",
        password := "pass1234" } := by
  obtain ⟨u, h1, h2, -, -, -⟩ := claim9_registration.1 { users := [] }
    { full_name := some "First User", email := some "first@email.com",
      password := some "password123" } rfl
  refine ⟨⟨u, h1, h2⟩, ?_, ?_, ?_⟩
  · exact claim9_registration.2.2.1 { users := [] }
      { full_name := some "Short Pass User",
        email := some "shortpass@email.com", password := some "123" }
      "123" rfl
  · exact claim9_registration.2.2.2.1 sampleUserDB
      { full_name := some "Second User", email := some "dup@email.com",
        password := some "pass1234" } "dup@email.com" rfl (by decide)
  · exact claim9_registration.2.1
      { id := 1, full_name := "First User", email := "dup@email.com",
        password := "pass1234" } "changed"

end HealthTracker
